import Mathlib

/-!
Verification of the TikTok downloader bot (src/90/bot.py) against its
natural-language specification.  The Python module is shallowly embedded:
pure string manipulation becomes Lean functions on `String`/`List Char`,
and the effectful handler becomes a pure function from an explicit
environment (extractor outcome, filesystem facts, upload outcome) to the
list of observable actions it performs, in order.
-/

/-- Model of the Python substring test `needle in hay` on character lists:
true iff `needle` occurs contiguously inside `hay`. -/
def listContains (needle : List Char) : List Char → Bool
  | [] => needle.isEmpty
  | c :: t => needle.isPrefixOf (c :: t) || listContains needle t

/-- Python `needle in hay` for strings. -/
def str_in (needle hay : String) : Bool := listContains needle.data hay.data

/-- Model of Python `str.lower()` (ASCII case folding, per character). -/
def pyLower (s : String) : String := ⟨s.data.map Char.toLower⟩

/-- Model of Python `str.strip()`: drop leading and trailing whitespace. -/
def pyStrip (s : String) : String :=
  ⟨((s.data.dropWhile Char.isWhitespace).reverse.dropWhile Char.isWhitespace).reverse⟩

/-- Model of Python `s.endswith(suf)`. -/
def pyEndsWith (s suf : String) : Bool := suf.data.isSuffixOf s.data

/-- The fragment list from `TikTokDownloader.is_tiktok_url` (bot.py line 57). -/
def tiktok_domains : List String := ["tiktok.com", "vm.tiktok.com", "vt.tiktok.com"]

/-- `TikTokDownloader.is_tiktok_url` (bot.py lines 55-58):
`any(domain in url.lower() for domain in tiktok_domains)`. -/
def is_tiktok_url (url : String) : Bool :=
  tiktok_domains.any (fun domain => str_in domain (pyLower url))

/-- Specification-side notion of string containment: `needle` occurs
contiguously in `hay`, stated as an explicit decomposition. -/
def occurs_in (needle hay : String) : Prop :=
  ∃ l r, hay.data = l ++ needle.data ++ r

/-- The single-fragment classifier described by claim C10 (stated from the
claim, to be compared with the source function `is_tiktok_url`). -/
def is_tiktok_url_single (url : String) : Bool :=
  str_in "tiktok.com" (pyLower url)

lemma listContains_iff (n h : List Char) :
    listContains n h = true ↔ ∃ l r, h = l ++ n ++ r := by
  induction h with
  | nil =>
    simp only [listContains, List.isEmpty_iff]
    constructor
    · rintro rfl; exact ⟨[], [], rfl⟩
    · rintro ⟨l, r, he⟩
      rcases List.append_eq_nil.mp (List.append_eq_nil.mp he.symm).1 with ⟨-, hn⟩
      exact hn
  | cons c t ih =>
    simp only [listContains, Bool.or_eq_true, ih]
    constructor
    · rintro (hp | ⟨l, r, rfl⟩)
      · rcases List.isPrefixOf_iff_prefix.mp hp with ⟨r, hr⟩
        exact ⟨[], r, by simp [hr]⟩
      · exact ⟨c :: l, r, by simp⟩
    · rintro ⟨l, r, he⟩
      cases l with
      | nil =>
        left
        exact List.isPrefixOf_iff_prefix.mpr ⟨r, by simpa using he.symm⟩
      | cons a l =>
        right
        rcases List.cons_eq_cons.mp (by simpa using he) with ⟨rfl, rfl⟩
        exact ⟨l, r, by simp⟩

lemma str_in_iff (needle hay : String) :
    str_in needle hay = true ↔ occurs_in needle hay :=
  listContains_iff needle.data hay.data

/-- Claim C1: for every string `s`, `is_tiktok_url` returns true iff the
lowercased `s` contains at least one of the three recognized host
fragments; it is a total boolean function (totality is inherent in the
Lean model). -/
theorem c1_is_tiktok_url_iff (s : String) :
    is_tiktok_url s = true ↔
      (occurs_in "tiktok.com" (pyLower s) ∨
       occurs_in "vm.tiktok.com" (pyLower s) ∨
       occurs_in "vt.tiktok.com" (pyLower s)) := by
  simp only [is_tiktok_url, tiktok_domains, List.any_cons, List.any_nil,
    Bool.or_eq_true, Bool.false_eq_true, or_false, str_in_iff]

lemma vm_fragment_split : ("vm.tiktok.com" : String).data = [ 'v', 'm', '.'] ++ ("tiktok.com" : String).data := rfl

lemma vt_fragment_split : ("vt.tiktok.com" : String).data = [ 'v', 't', '.'] ++ ("tiktok.com" : String).data := rfl

lemma occurs_in_vm (h : String) (hvm : occurs_in "vm.tiktok.com" h) :
    occurs_in "tiktok.com" h := by
  rcases hvm with ⟨l, r, he⟩
  refine ⟨l ++ [ 'v', 'm', '.'], r, ?_⟩
  rw [he, vm_fragment_split]
  simp [List.append_assoc]

lemma occurs_in_vt (h : String) (hvt : occurs_in "vt.tiktok.com" h) :
    occurs_in "tiktok.com" h := by
  rcases hvt with ⟨l, r, he⟩
  refine ⟨l ++ [ 'v', 't', '.'], r, ?_⟩
  rw [he, vt_fragment_split]
  simp [List.append_assoc]

/-- Claim C10: the three-fragment check is equivalent to the single
substring check on the fragment shared by all three domains. -/
theorem c10_single_fragment_equiv (s : String) :
    is_tiktok_url s = is_tiktok_url_single s := by
  cases hone : is_tiktok_url_single s with
  | true =>
    have : str_in "tiktok.com" (pyLower s) = true := hone
    simp [is_tiktok_url, tiktok_domains, this]
  | false =>
    have hno : ¬ occurs_in "tiktok.com" (pyLower s) := by
      intro hc
      have := (str_in_iff "tiktok.com" (pyLower s)).mpr hc
      rw [is_tiktok_url_single] at hone
      exact absurd this (by simp [hone])
    have h1 : str_in "tiktok.com" (pyLower s) = false := by
      rw [is_tiktok_url_single] at hone
      exact hone
    have h2 : str_in "vm.tiktok.com" (pyLower s) = false := by
      cases hx : str_in "vm.tiktok.com" (pyLower s) with
      | false => rfl
      | true => exact absurd (occurs_in_vm _ ((str_in_iff _ _).mp hx)) hno
    have h3 : str_in "vt.tiktok.com" (pyLower s) = false := by
      cases hx : str_in "vt.tiktok.com" (pyLower s) with
      | false => rfl
      | true => exact absurd (occurs_in_vt _ ((str_in_iff _ _).mp hx)) hno
    simp [is_tiktok_url, tiktok_domains, h1, h2, h3]

/-!
## Downloader model

`TikTokDownloader.download_video` (bot.py lines 33-53) talks to the
network and the filesystem through yt-dlp; `YDLEnv` records the outcomes
of those external calls for one invocation: the result of
`ydl.extract_info` (an error message, or the title field of the info
dict), the result of `ydl.download` (an error message if it raised), and
the directory listing `os.listdir(output_path)` observed afterwards.
-/

structure YDLEnv where
  extract_result : Except String (Option String)
  download_result : Option String
  listing : List String
deriving Repr

/-- What one call of `download_video` produces: the returned Python value
and the log lines it emitted.  The returned value is either a pair
(each component itself optional, as in `return None, None`) or the bare
`None` produced by falling off the end of the function. -/
structure DownloadOutcome where
  ret : Option (Option String × Option String)
  log : List String
deriving DecidableEq, Repr

/-- Model of `os.path.join` on POSIX for a relative second component. -/
def path_join (dir file : String) : String := dir ++ "/" ++ file

/-- `TikTokDownloader.download_video` (bot.py lines 33-53).  On an
extraction or download exception it logs and returns `(None, None)`; on
success it scans the directory listing and returns the first `.mp4`
file joined with the directory plus the title (defaulted to
`TikTok_Video`); if no listed file ends in `.mp4` it falls off the end
of the Python function, returning the bare `None` with nothing logged. -/
def download_video (env : YDLEnv) (url output_path : String) : DownloadOutcome :=
  match env.extract_result with
  | Except.error e => ⟨some (none, none), ["Error downloading video: " ++ e]⟩
  | Except.ok title_field =>
    match env.download_result with
    | some e => ⟨some (none, none), ["Error downloading video: " ++ e]⟩
    | none =>
      match env.listing.find? (fun file => pyEndsWith file ".mp4") with
      | some file =>
        ⟨some (some (path_join output_path file), some (title_field.getD "TikTok_Video")), []⟩
      | none => ⟨none, []⟩

/-!
## Handler model

`download_tiktok_video` (bot.py lines 116-177) is embedded as a pure
function from a `HandlerEnv` (the downloader environment plus the
filesystem and upload outcomes for this invocation) to the ordered list
of observable actions it performs.
-/

inductive BotAction where
  | reply_text (msg : String)
  | edit_status (msg : String)
  | reply_video (caption : String)
  | delete_status
  | create_temp_dir (dir : String)
  | remove_temp_dir (dir : String)
  | invoke_downloader (url dir : String)
  | log_error (msg : String)
deriving DecidableEq, Repr

structure HandlerEnv where
  ydl : YDLEnv
  temp_dir : String
  file_exists : String → Bool
  file_size : String → Nat
  upload_error : Option String

/-- The chat messages of bot.py, verbatim. -/
def invalid_url_message : String :=
  "❌ Please send a valid TikTok URL.\n\nSupported formats:\n• https://www.tiktok.com/@username/video/1234567890\n• https://vm.tiktok.com/xxxxx\n• https://vt.tiktok.com/xxxxx"

def processing_message_text : String := "🔄 Processing your TikTok video... Please wait."

def too_large_message : String :=
  "❌ Video is too large to send via Telegram (>50MB).\nPlease try a shorter video."

def uploading_message : String := "📤 Uploading video..."

def failed_message : String :=
  "❌ Failed to download video. Please check:\n• The URL is correct\n• The video is public\n• The video still exists\n\nTry again or contact support if the issue persists."

def generic_error_message : String :=
  "❌ An error occurred while downloading the video.\nPlease try again later or contact support."

/-- Python renders `None` in an f-string as the text `None`. -/
def py_str (o : Option String) : String := o.getD "None"

/-- The success caption f-string of bot.py line 157. -/
def success_caption (video_title : String) : String :=
  "🎵 *" ++ video_title ++ "*\n\n✅ Downloaded successfully!"

/-- The size threshold of bot.py line 142: `50 * 1024 * 1024`. -/
def telegram_limit : Nat := 50 * 1024 * 1024

/-- Actions common to every path that enters the `with` block: create the
temporary directory, call the downloader, and emit whatever the
downloader logged. -/
def base_actions (env : HandlerEnv) (url : String) : List BotAction :=
  [BotAction.create_temp_dir env.temp_dir, BotAction.invoke_downloader url env.temp_dir] ++
    (download_video env.ydl url env.temp_dir).log.map BotAction.log_error

/-- The body of the `try`/`with` block of `download_tiktok_video`
(bot.py lines 134-170): the actions performed inside the block, plus the
message of the exception escaping the block, if any.  The two in-model
exception sources are the `TypeError` from unpacking the bare `None`
returned by `download_video` (bot.py line 136) and an exception during
the file open/upload (bot.py lines 154-159). -/
def handler_try_body (env : HandlerEnv) (url : String) : List BotAction × Option String :=
  match (download_video env.ydl url env.temp_dir).ret with
  | none => (base_actions env url, some "cannot unpack non-iterable NoneType object")
  | some (video_path, video_title) =>
    match video_path with
    | some vp =>
      if (!(vp == "")) && env.file_exists vp then
        if env.file_size vp > telegram_limit then
          (base_actions env url ++ [BotAction.edit_status too_large_message], none)
        else
          match env.upload_error with
          | some e => (base_actions env url ++ [BotAction.edit_status uploading_message], some e)
          | none =>
            (base_actions env url ++
              [BotAction.edit_status uploading_message,
               BotAction.reply_video (success_caption (py_str video_title)),
               BotAction.delete_status], none)
      else (base_actions env url ++ [BotAction.edit_status failed_message], none)
    | none => (base_actions env url ++ [BotAction.edit_status failed_message], none)

/-- `download_tiktok_video` (bot.py lines 116-177).  The URL is the
stripped message text; a non-TikTok URL is answered immediately;
otherwise the processing message is sent, the `try`/`with` body runs,
the temporary directory is removed on exit of the `with` block, and an
escaping exception is then logged and reported with the generic error
message. -/
def download_tiktok_video (env : HandlerEnv) (text : String) : List BotAction :=
  if is_tiktok_url (pyStrip text) = false then
    [BotAction.reply_text invalid_url_message]
  else
    BotAction.reply_text processing_message_text ::
      ((handler_try_body env (pyStrip text)).1 ++ [BotAction.remove_temp_dir env.temp_dir] ++
        (match (handler_try_body env (pyStrip text)).2 with
         | none => []
         | some e =>
           [BotAction.log_error ("Error in download_tiktok_video: " ++ e),
            BotAction.edit_status generic_error_message]))

/-!
## Bootstrap model

bot.py line 18 binds the module global `TOKEN` from the environment;
`main` (bot.py lines 192-206) then builds the application with the
identifier `BOT_TOKEN`, which Python resolves against the module
globals at call time.
-/

/-- bot.py line 18: `TOKEN = os.getenv("BOT_TOKEN")`. -/
def TOKEN (process_env : String → Option String) : Option String :=
  process_env "BOT_TOKEN"

/-- The names bound at module level in bot.py, in source order. -/
def module_globals : List String :=
  ["os", "requests", "json", "Update", "Application", "CommandHandler",
   "MessageHandler", "filters", "ContextTypes", "yt_dlp", "tempfile",
   "logging", "logger", "TOKEN", "TikTokDownloader", "downloader",
   "start", "help_command", "download_tiktok_video", "handle_text", "main"]

/-- The identifier used for the token in `main` (bot.py line 195):
`Application.builder().token(BOT_TOKEN).build()`. -/
def main_token_identifier : String := "BOT_TOKEN"

/-- The observable bootstrap steps of `main`. -/
inductive MainEvent where
  | built_application (token : Option String)
  | added_handler (handler_name : String)
  | run_polling
deriving DecidableEq, Repr

/-- `main` (bot.py lines 192-206).  Python resolves the free identifier
`BOT_TOKEN` against the module globals before anything else happens; if
the name is unbound a `NameError` is raised, otherwise the application
is built with the resolved token value, the three handlers are added and
polling starts. -/
def bot_main (env_token : Option String) : Except String (List MainEvent) :=
  if module_globals.contains main_token_identifier then
    Except.ok
      [MainEvent.built_application env_token,
       MainEvent.added_handler "start",
       MainEvent.added_handler "help",
       MainEvent.added_handler "text",
       MainEvent.run_polling]
  else
    Except.error "NameError: name BOT_TOKEN is not defined"

/-- Claim C3 (code_bug evidence): `main` never reaches the builder, the
handler registrations or the polling loop: whatever value the module
global `TOKEN` received from the process environment, the free
identifier `BOT_TOKEN` used in `main` is not among the module globals,
so the call fails with a `NameError` instead of bootstrapping. -/
theorem c3_main_name_error (process_env : String → Option String) :
    bot_main (TOKEN process_env) =
      Except.error "NameError: name BOT_TOKEN is not defined" := by
  unfold bot_main
  rw [if_neg (by decide)]

/-- Claim C2 (code_bug evidence): at the failing input — extraction and
download both succeed but the output directory holds no `.mp4` file —
`download_video` returns the bare `None` (not the pair of two absent
values) and logs nothing. -/
theorem c2_no_mp4_returns_bare_none :
    download_video ⟨Except.ok (some "Some Title"), none, ["clip.webm", "notes.txt"]⟩
        "https://vm.tiktok.com/abc" "/tmp/d" = ⟨none, []⟩ := by
  decide

lemma find?_first {α : Type} (p : α → Bool) (pre : List α) (f : α) (post : List α)
    (hpre : ∀ g ∈ pre, p g = false) (hf : p f = true) :
    (pre ++ f :: post).find? p = some f := by
  induction pre with
  | nil => simp [List.find?_cons, hf]
  | cons a pre ih =>
    have ha : p a = false := hpre a (by simp)
    simp only [List.cons_append, List.find?_cons, ha]
    exact ih (fun g hg => hpre g (by simp [hg]))

/-- Claim C6: when extraction and download succeed and the directory
listing has a first file ending in `.mp4`, `download_video` returns the
join of the supplied directory with that first matching file, together
with the extracted title, defaulting to `TikTok_Video` when the
metadata has no title. -/
theorem c6_download_success (env : YDLEnv) (url dir : String)
    (title_field : Option String) (pre : List String) (f : String) (post : List String)
    (hx : env.extract_result = Except.ok title_field)
    (hd : env.download_result = none)
    (hl : env.listing = pre ++ f :: post)
    (hpre : ∀ g ∈ pre, pyEndsWith g ".mp4" = false)
    (hf : pyEndsWith f ".mp4" = true) :
    download_video env url dir =
      ⟨some (some (path_join dir f), some (title_field.getD "TikTok_Video")), []⟩ := by
  simp only [download_video, hx, hd, hl]
  rw [find?_first (fun file => pyEndsWith file ".mp4") pre f post hpre hf]

/-- Witness for C6 at a concrete environment: two non-video files first,
then the video; no title in the metadata, so the default is used. -/
theorem c6_witness :
    (⟨Except.ok none, none, ["a.txt", "b.webm", "Clip.mp4", "d.mp4"]⟩ : YDLEnv).extract_result
        = Except.ok none ∧
    (⟨Except.ok none, none, ["a.txt", "b.webm", "Clip.mp4", "d.mp4"]⟩ : YDLEnv).download_result
        = none ∧
    (⟨Except.ok none, none, ["a.txt", "b.webm", "Clip.mp4", "d.mp4"]⟩ : YDLEnv).listing
        = ["a.txt", "b.webm"] ++ "Clip.mp4" :: ["d.mp4"] ∧
    (∀ g ∈ ["a.txt", "b.webm"], pyEndsWith g ".mp4" = false) ∧
    pyEndsWith "Clip.mp4" ".mp4" = true ∧
    download_video ⟨Except.ok none, none, ["a.txt", "b.webm", "Clip.mp4", "d.mp4"]⟩
        "https://vt.tiktok.com/x" "/tmp/out" =
      ⟨some (some "/tmp/out/Clip.mp4", some "TikTok_Video"), []⟩ := by
  refine ⟨rfl, rfl, by decide, by decide, by decide, ?_⟩
  have := c6_download_success
    ⟨Except.ok none, none, ["a.txt", "b.webm", "Clip.mp4", "d.mp4"]⟩
    "https://vt.tiktok.com/x" "/tmp/out" none ["a.txt", "b.webm"] "Clip.mp4" ["d.mp4"]
    rfl rfl (by decide) (by decide) (by decide)
  simpa [path_join] using this

/-!
## Temporary directory lifetime

Replaying an action list tracks whether the scoped temporary directory
exists at the end. -/

/-- One step of the replay: creation and removal of the watched directory
flip its existence, every other action leaves it unchanged. -/
def live_step (dir : String) (live : Bool) (a : BotAction) : Bool :=
  match a with
  | BotAction.create_temp_dir d => if d = dir then true else live
  | BotAction.remove_temp_dir d => if d = dir then false else live
  | _ => live

/-- Whether directory `dir` exists after all actions ran (it does not
exist beforehand). -/
def temp_dir_live (dir : String) (acts : List BotAction) : Bool :=
  acts.foldl (live_step dir) false

lemma live_after_remove (dir : String) (pre : List BotAction) (b : Bool) :
    List.foldl (live_step dir) b (pre ++ [BotAction.remove_temp_dir dir]) = false := by
  rw [List.foldl_append]
  simp [live_step]

/-- Claim C5: for every environment and message text, once the handler
reaches any terminal outcome the scoped temporary directory no longer
exists: every exit path removes it. -/
theorem c5_temp_dir_cleanup (env : HandlerEnv) (text : String) :
    temp_dir_live env.temp_dir (download_tiktok_video env text) = false := by
  unfold download_tiktok_video
  cases his : is_tiktok_url (pyStrip text) with
  | false => simp [temp_dir_live, live_step]
  | true =>
    simp only [his, Bool.true_eq_false, if_false]
    cases hexc : (handler_try_body env (pyStrip text)).2 with
    | none =>
      simp only [hexc, temp_dir_live, List.foldl_cons, List.append_nil]
      exact live_after_remove _ _ _
    | some e =>
      simp only [hexc, temp_dir_live, List.foldl_cons]
      rw [show (handler_try_body env (pyStrip text)).1 ++ [BotAction.remove_temp_dir env.temp_dir] ++
            [BotAction.log_error ("Error in download_tiktok_video: " ++ e),
             BotAction.edit_status generic_error_message] =
          ((handler_try_body env (pyStrip text)).1 ++ [BotAction.remove_temp_dir env.temp_dir]) ++
            [BotAction.log_error ("Error in download_tiktok_video: " ++ e),
             BotAction.edit_status generic_error_message] from by simp]
      rw [List.foldl_append, live_after_remove]
      rfl

/-! ## Helper lemmas about the handler branches -/

lemma str_data_append (s t : String) : (s ++ t).data = s.data ++ t.data := by
  cases s; cases t; rfl

lemma path_join_ne_empty (d f : String) : path_join d f ≠ "" := by
  intro h
  have hd : (path_join d f).data = ("" : String).data := by rw [h]
  rw [path_join, str_data_append, str_data_append] at hd
  simp at hd

lemma download_video_of_find (env : YDLEnv) (url dir : String)
    (title_field : Option String) (f : String)
    (hx : env.extract_result = Except.ok title_field)
    (hd : env.download_result = none)
    (hfind : env.listing.find? (fun file => pyEndsWith file ".mp4") = some f) :
    download_video env url dir =
      ⟨some (some (path_join dir f), some (title_field.getD "TikTok_Video")), []⟩ := by
  simp only [download_video, hx, hd, hfind]

lemma handler_acts_ok (env : HandlerEnv) (text : String) (B : List BotAction)
    (his : is_tiktok_url (pyStrip text) = true)
    (hB : handler_try_body env (pyStrip text) = (B, none)) :
    download_tiktok_video env text =
      BotAction.reply_text processing_message_text ::
        (B ++ [BotAction.remove_temp_dir env.temp_dir]) := by
  unfold download_tiktok_video
  simp [his, hB]

lemma handler_acts_exc (env : HandlerEnv) (text : String) (B : List BotAction) (e : String)
    (his : is_tiktok_url (pyStrip text) = true)
    (hB : handler_try_body env (pyStrip text) = (B, some e)) :
    download_tiktok_video env text =
      BotAction.reply_text processing_message_text ::
        (B ++ [BotAction.remove_temp_dir env.temp_dir] ++
          [BotAction.log_error ("Error in download_tiktok_video: " ++ e),
           BotAction.edit_status generic_error_message]) := by
  unfold download_tiktok_video
  simp [his, hB]

lemma try_body_too_large (env : HandlerEnv) (url vp : String) (vt : Option String)
    (hr : (download_video env.ydl url env.temp_dir).ret = some (some vp, vt))
    (hne : vp ≠ "")
    (hex : env.file_exists vp = true)
    (hsz : telegram_limit < env.file_size vp) :
    handler_try_body env url =
      (base_actions env url ++ [BotAction.edit_status too_large_message], none) := by
  simp [handler_try_body, hr, hne, hex, hsz]

lemma try_body_upload (env : HandlerEnv) (url vp : String) (vt : Option String)
    (hr : (download_video env.ydl url env.temp_dir).ret = some (some vp, vt))
    (hne : vp ≠ "")
    (hex : env.file_exists vp = true)
    (hsz : env.file_size vp ≤ telegram_limit)
    (hup : env.upload_error = none) :
    handler_try_body env url =
      (base_actions env url ++
        [BotAction.edit_status uploading_message,
         BotAction.reply_video (success_caption (py_str vt)),
         BotAction.delete_status], none) := by
  simp [handler_try_body, hr, hne, hex, Nat.not_lt.mpr hsz, hup]

lemma try_body_upload_exc (env : HandlerEnv) (url vp : String) (vt : Option String) (e : String)
    (hr : (download_video env.ydl url env.temp_dir).ret = some (some vp, vt))
    (hne : vp ≠ "")
    (hex : env.file_exists vp = true)
    (hsz : env.file_size vp ≤ telegram_limit)
    (hup : env.upload_error = some e) :
    handler_try_body env url =
      (base_actions env url ++ [BotAction.edit_status uploading_message], some e) := by
  simp [handler_try_body, hr, hne, hex, Nat.not_lt.mpr hsz, hup]

/-- Claim C4: whenever the download of a handled message yields an
existing file strictly larger than 50 * 1024 * 1024 bytes, the handler
edits the status message to the too-large rejection and never performs
any part of the upload step (no uploading notice, no video message). -/
theorem c4_too_large_rejects (env : HandlerEnv) (text vp : String) (vt : Option String)
    (h0 : is_tiktok_url (pyStrip text) = true)
    (hr : (download_video env.ydl (pyStrip text) env.temp_dir).ret = some (some vp, vt))
    (hne : vp ≠ "")
    (hex : env.file_exists vp = true)
    (hsz : 50 * 1024 * 1024 < env.file_size vp) :
    BotAction.edit_status too_large_message ∈ download_tiktok_video env text
    ∧ (∀ c, BotAction.reply_video c ∉ download_tiktok_video env text)
    ∧ BotAction.edit_status uploading_message ∉ download_tiktok_video env text := by
  have htb := try_body_too_large env (pyStrip text) vp vt hr hne hex
    (by simpa [telegram_limit] using hsz)
  have hacts := handler_acts_ok env text _ h0 htb
  rw [hacts]
  refine ⟨by simp, ?_, ?_⟩
  · intro c
    simp [base_actions]
  · simp [base_actions]
    decide

def c4_env : HandlerEnv :=
  ⟨⟨Except.ok (some "Big"), none, ["v.mp4"]⟩, "/tmp/c4", fun _ => true, fun _ => 52428801, none⟩

/-- Witness for C4 at a concrete environment: a 52428801-byte file. -/
theorem c4_witness :
    is_tiktok_url (pyStrip "https://vm.tiktok.com/big") = true ∧
    (download_video c4_env.ydl (pyStrip "https://vm.tiktok.com/big") c4_env.temp_dir).ret
        = some (some "/tmp/c4/v.mp4", some "Big") ∧
    "/tmp/c4/v.mp4" ≠ "" ∧
    c4_env.file_exists "/tmp/c4/v.mp4" = true ∧
    50 * 1024 * 1024 < c4_env.file_size "/tmp/c4/v.mp4" ∧
    (BotAction.edit_status too_large_message
        ∈ download_tiktok_video c4_env "https://vm.tiktok.com/big"
     ∧ (∀ c, BotAction.reply_video c ∉ download_tiktok_video c4_env "https://vm.tiktok.com/big")
     ∧ BotAction.edit_status uploading_message
        ∉ download_tiktok_video c4_env "https://vm.tiktok.com/big") :=
  ⟨by decide, by decide, by decide, rfl, by decide,
   c4_too_large_rejects c4_env "https://vm.tiktok.com/big" "/tmp/c4/v.mp4" (some "Big")
     (by decide) (by decide) (by decide) rfl (by decide)⟩

/-- Claim C9: the size check is a strict inequality: a file of exactly
50 * 1024 * 1024 bytes is not rejected and the handler proceeds to the
upload step. -/
theorem c9_exact_limit_uploads (env : HandlerEnv) (text vp : String) (vt : Option String)
    (h0 : is_tiktok_url (pyStrip text) = true)
    (hr : (download_video env.ydl (pyStrip text) env.temp_dir).ret = some (some vp, vt))
    (hne : vp ≠ "")
    (hex : env.file_exists vp = true)
    (hsz : env.file_size vp = 50 * 1024 * 1024) :
    BotAction.edit_status uploading_message ∈ download_tiktok_video env text
    ∧ BotAction.edit_status too_large_message ∉ download_tiktok_video env text := by
  have hle : env.file_size vp ≤ telegram_limit := by simp [telegram_limit, hsz]
  have hmsg : uploading_message ≠ too_large_message := by decide
  cases hup : env.upload_error with
  | none =>
    have htb := try_body_upload env (pyStrip text) vp vt hr hne hex hle hup
    rw [handler_acts_ok env text _ h0 htb]
    refine ⟨by simp, ?_⟩
    simp [base_actions]
    decide
  | some e =>
    have htb := try_body_upload_exc env (pyStrip text) vp vt e hr hne hex hle hup
    rw [handler_acts_exc env text _ e h0 htb]
    refine ⟨by simp, ?_⟩
    simp [base_actions]
    decide

def c9_env : HandlerEnv :=
  ⟨⟨Except.ok (some "Edge"), none, ["v.mp4"]⟩, "/tmp/c9", fun _ => true, fun _ => 52428800, none⟩

/-- Witness for C9 at a concrete environment: a file of exactly
52428800 bytes. -/
theorem c9_witness :
    is_tiktok_url (pyStrip "https://vt.tiktok.com/edge") = true ∧
    (download_video c9_env.ydl (pyStrip "https://vt.tiktok.com/edge") c9_env.temp_dir).ret
        = some (some "/tmp/c9/v.mp4", some "Edge") ∧
    "/tmp/c9/v.mp4" ≠ "" ∧
    c9_env.file_exists "/tmp/c9/v.mp4" = true ∧
    c9_env.file_size "/tmp/c9/v.mp4" = 50 * 1024 * 1024 ∧
    (BotAction.edit_status uploading_message
        ∈ download_tiktok_video c9_env "https://vt.tiktok.com/edge"
     ∧ BotAction.edit_status too_large_message
        ∉ download_tiktok_video c9_env "https://vt.tiktok.com/edge") :=
  ⟨by decide, by decide, by decide, rfl, by decide,
   c9_exact_limit_uploads c9_env "https://vt.tiktok.com/edge" "/tmp/c9/v.mp4" (some "Edge")
     (by decide) (by decide) (by decide) rfl (by decide)⟩

/-- Recognizes the outbound video message among the actions. -/
def is_video_action : BotAction → Bool
  | BotAction.reply_video _ => true
  | _ => false

/-- Claim C8: on a handled TikTok URL whose download succeeds within the
size limit, the downloader is invoked with the exact message text and a
directory path, exactly one outbound video message is sent, its caption
contains the extracted title and the success marker, and the processing
status message is deleted. -/
theorem c8_success_flow (env : HandlerEnv) (text : String)
    (title_field : Option String) (f : String)
    (hstrip : pyStrip text = text)
    (h0 : is_tiktok_url text = true)
    (hx : env.ydl.extract_result = Except.ok title_field)
    (hd : env.ydl.download_result = none)
    (hfind : env.ydl.listing.find? (fun file => pyEndsWith file ".mp4") = some f)
    (hex : env.file_exists (path_join env.temp_dir f) = true)
    (hsz : env.file_size (path_join env.temp_dir f) ≤ 50 * 1024 * 1024)
    (hup : env.upload_error = none) :
    BotAction.invoke_downloader text env.temp_dir ∈ download_tiktok_video env text
    ∧ BotAction.reply_video (success_caption (title_field.getD "TikTok_Video"))
        ∈ download_tiktok_video env text
    ∧ List.countP is_video_action (download_tiktok_video env text) = 1
    ∧ occurs_in (title_field.getD "TikTok_Video")
        (success_caption (title_field.getD "TikTok_Video"))
    ∧ occurs_in "✅" (success_caption (title_field.getD "TikTok_Video"))
    ∧ BotAction.delete_status ∈ download_tiktok_video env text := by
  have hdv := download_video_of_find env.ydl text env.temp_dir title_field f hx hd hfind
  have hr : (download_video env.ydl (pyStrip text) env.temp_dir).ret
      = some (some (path_join env.temp_dir f), some (title_field.getD "TikTok_Video")) := by
    rw [hstrip, hdv]
  have htb := try_body_upload env (pyStrip text) (path_join env.temp_dir f)
    (some (title_field.getD "TikTok_Video")) hr (path_join_ne_empty _ _)
    hex (by simpa [telegram_limit] using hsz) hup
  have hbase : base_actions env (pyStrip text) =
      [BotAction.create_temp_dir env.temp_dir,
       BotAction.invoke_downloader text env.temp_dir] := by
    rw [base_actions, hstrip, hdv]
    simp
  have hacts := handler_acts_ok env text _ (by rwa [hstrip]) htb
  rw [hbase] at hacts
  refine ⟨?_, ?_, ?_, ?_, ?_, ?_⟩
  · rw [hacts]; simp
  · rw [hacts]; simp [py_str]
  · rw [hacts]
    simp [is_video_action, py_str, List.countP_cons]
  · exact ⟨("🎵 *" : String).data, ("*\n\n✅ Downloaded successfully!" : String).data,
      by rw [success_caption, str_data_append, str_data_append]⟩
  · refine ⟨("🎵 *" : String).data ++ (title_field.getD "TikTok_Video").data ++
        ("*\n\n" : String).data, (" Downloaded successfully!" : String).data, ?_⟩
    rw [success_caption, str_data_append, str_data_append]
    rw [show ("*\n\n✅ Downloaded successfully!" : String).data =
        ("*\n\n" : String).data ++ ("✅" : String).data ++
          (" Downloaded successfully!" : String).data from by decide]
    simp [List.append_assoc]
  · rw [hacts]; simp

def c8_env : HandlerEnv :=
  ⟨⟨Except.ok (some "Example"), none, ["Example.mp4"]⟩, "/tmp/c8",
   fun _ => true, fun _ => 1000, none⟩

/-- Witness for C8 at the scenario input of the specification. -/
theorem c8_witness :
    pyStrip "https://vt.tiktok.com/ZSAbC123" = "https://vt.tiktok.com/ZSAbC123" ∧
    is_tiktok_url "https://vt.tiktok.com/ZSAbC123" = true ∧
    c8_env.ydl.extract_result = Except.ok (some "Example") ∧
    c8_env.ydl.download_result = none ∧
    c8_env.ydl.listing.find? (fun file => pyEndsWith file ".mp4") = some "Example.mp4" ∧
    c8_env.file_exists (path_join c8_env.temp_dir "Example.mp4") = true ∧
    c8_env.file_size (path_join c8_env.temp_dir "Example.mp4") ≤ 50 * 1024 * 1024 ∧
    c8_env.upload_error = none ∧
    (BotAction.invoke_downloader "https://vt.tiktok.com/ZSAbC123" c8_env.temp_dir
        ∈ download_tiktok_video c8_env "https://vt.tiktok.com/ZSAbC123"
     ∧ BotAction.reply_video (success_caption ((some "Example").getD "TikTok_Video"))
        ∈ download_tiktok_video c8_env "https://vt.tiktok.com/ZSAbC123"
     ∧ List.countP is_video_action
        (download_tiktok_video c8_env "https://vt.tiktok.com/ZSAbC123") = 1
     ∧ occurs_in ((some "Example").getD "TikTok_Video")
        (success_caption ((some "Example").getD "TikTok_Video"))
     ∧ occurs_in "✅" (success_caption ((some "Example").getD "TikTok_Video"))
     ∧ BotAction.delete_status
        ∈ download_tiktok_video c8_env "https://vt.tiktok.com/ZSAbC123") :=
  ⟨by decide, by decide, rfl, rfl, by decide, rfl, by decide, rfl,
   c8_success_flow c8_env "https://vt.tiktok.com/ZSAbC123" (some "Example") "Example.mp4"
     (by decide) (by decide) rfl rfl (by decide) rfl (by decide) rfl⟩

def c7_env : HandlerEnv :=
  ⟨⟨Except.ok (some "T"), none, ["clip.webm"]⟩, "/tmp/c7", fun _ => true, fun _ => 0, none⟩

/-- Claim C7 (code_bug evidence): when the downloader finds no video
file it returns the bare `None`, and the handler, instead of editing the
status message to the failed-to-download explanation, hits the
tuple-unpacking `TypeError` and edits it to the generic error message;
it still raises nothing to its caller. -/
theorem c7_bare_none_generic_message :
    BotAction.edit_status generic_error_message
        ∈ download_tiktok_video c7_env "https://vm.tiktok.com/xyz"
    ∧ BotAction.edit_status failed_message
        ∉ download_tiktok_video c7_env "https://vm.tiktok.com/xyz" := by
  decide
